import Mathlib

/-!
Shallow embedding of the identity-provider automation scripts
(`ansible/roles/authentik/files/*.py`, `ansible/roles/zitadel/files/*.py`).

Each script is a linear sequence of HTTP calls; we embed it as a pure
function from the sequence of remote responses (and the command-line
arguments) to the observable behaviour of the process: its exit code and
the lines written to standard output and standard error.  A Python
`KeyError` (subscripting a dict with a missing key) or an uncaught
exception escaping `main` is modelled by `Except.error`.

JSON bodies are modelled by the `Json` inductive below; listing endpoints
whose result rows the scripts only project through fixed keys are in some
places modelled as typed records (`Flow`, `Project`, ...), the parsed view
of the response rows.
-/

/-- JSON values, as decoded by `json.loads` / `response.json()`. -/
inductive Json where
  | null
  | str (s : String)
  | num (n : Int)
  | boolean (b : Bool)
  | arr (elems : List Json)
  | obj (fields : List (String × Json))

/-- Python `dict.get(k)`: the value bound to `k`, or `none` when the key is
absent (or the value is not a JSON object). -/
def Json.get? : Json → String → Option Json
  | .obj kvs, k => kvs.lookup k
  | _, _ => none

/-- Python `dict.get(k)` restricted to string values. -/
def Json.getStr? (j : Json) (k : String) : Option String :=
  match j.get? k with
  | some (.str s) => some s
  | _ => none

/-- Python `dict.get(k, default)`. -/
def Json.getD (j : Json) (k : String) (d : Json) : Json :=
  (j.get? k).getD d

/-- Python `dict.get(k, "")` followed by use as a string: the string value
bound to `k`, or `""` when absent. -/
def jStrD (j : Json) (k : String) : String :=
  match j.get? k with
  | some (.str s) => s
  | _ => ""

/-- Python `d.get(k) == v` for a string literal `v`. -/
def jStrIs (j : Json) (k v : String) : Bool :=
  match j.get? k with
  | some (.str s) => s == v
  | _ => false

/-- Python `d.get(k, 0)` used as an integer. -/
def jIntD (j : Json) (k : String) (d : Int) : Int :=
  match j.get? k with
  | some (.num n) => n
  | _ => d

/-- Python `body.get("results", [])` / `body.get("result", [])`: the rows of
a listing response. -/
def Json.rows (j : Json) (k : String) : List Json :=
  match j.get? k with
  | some (.arr xs) => xs
  | _ => []

/-- Python equality between two scalar JSON values (the scripts only compare
identifier fields, which are strings or numbers). -/
def jScalarEq : Json → Json → Bool
  | .null, .null => true
  | .str a, .str b => a == b
  | .num a, .num b => a == b
  | .boolean a, .boolean b => a == b
  | _, _ => false

/-- Python truthiness of a decoded JSON value (`if not provider: ...`). -/
def Json.truthy : Json → Bool
  | .null => false
  | .str s => s ≠ ""
  | .num n => n ≠ 0
  | .boolean b => b
  | .arr xs => !xs.isEmpty
  | .obj kvs => !kvs.isEmpty

/-- Python falsiness of an `Optional[str]` (`if not token: ...`). -/
def falsyStr : Option String → Bool
  | none => true
  | some s => s == ""

/-- Python falsiness of an `Optional[Dict]` (`if not provider: ...`). -/
def falsyJson : Option Json → Bool
  | none => true
  | some j => !j.truthy

/-- Python `str.lower()` (ASCII case folding suffices for the literals the
scripts compare against). -/
def strLower (s : String) : String := String.mk (s.toList.map Char.toLower)

/-- Whether `n` occurs at the start of `hay`. -/
def charsStart : List Char → List Char → Bool
  | [], _ => true
  | _ :: _, [] => false
  | a :: as, b :: bs => a == b && charsStart as bs

/-- Whether `n` occurs contiguously anywhere in `hay`. -/
def charsSub (n : List Char) (hay : List Char) : Bool :=
  charsStart n hay ||
    match hay with
    | [] => false
    | _ :: rest => charsSub n rest

/-- Python `needle in hay` on strings. -/
def strIn (needle hay : String) : Bool := charsSub needle.toList hay.toList

/-- One line written by a script: either `json.dumps(...)` of an object, or
plain text. -/
inductive Out where
  | js (j : Json)
  | txt (s : String)

/-- Whether an output line is a JSON object carrying an `error` key. -/
def isJsonError : Out → Bool
  | .js (.obj kvs) => (kvs.lookup "error").isSome
  | _ => false

/-- Whether an output line is plain (non-JSON) text. -/
def Out.isText : Out → Bool
  | .txt _ => true
  | .js _ => false

/-- Observable behaviour of one script invocation. -/
structure RunOut where
  exit : Nat
  stdout : List Out
  stderr : List Out

/-- An HTTP response as the `requests` / `urllib` based clients see it:
the status code, the decoded JSON body, and the raw text (used in error
messages by the Zitadel scripts). -/
structure Resp where
  status : Nat
  body : Json
  text : String

/-- Outcome of one `urllib.request.urlopen` call: a 2xx/3xx response with a
JSON body, an `HTTPError` whose body may or may not parse as JSON, or a
transport-level `URLError` (DNS failure, connection refused, timeout). -/
inductive HttpOutcome where
  | success (status : Nat) (body : Json)
  | httpError (code : Nat) (rawBody : String) (parsed : Option Json)
  | transportError (msg : String)

namespace AuthentikAPI

/-- `AuthentikAPI._request` (authentik_api.py lines 34-75): returns
`(status, body)` on success, `(code, parsed-or-wrapped body)` on
`HTTPError`, and the sentinel `(0, error-payload)` on `URLError`.
It never raises. -/
def _request : HttpOutcome → Except String (Nat × Json)
  | .success status body => .ok (status, body)
  | .httpError code raw parsed =>
      .ok (code, parsed.getD (.obj [("error", .str raw)]))
  | .transportError msg => .ok (0, .obj [("error", .str msg)])

end AuthentikAPI

/-- The module-level `api_request` helper duplicated in
configure_invitation_flow.py, configure_2fa_enforcement.py,
configure_recovery_flow.py, create_invitation_flow.py and
create_recovery_flow.py (lines 11-31 of each): it catches only
`urllib.error.HTTPError`; a transport-level `urllib.error.URLError`
propagates to the caller, modelled by `Except.error`. -/
def api_request : HttpOutcome → Except String (Nat × Json)
  | .success status body => .ok (status, body)
  | .httpError code raw parsed =>
      .ok (code, parsed.getD (.obj [("error", .str raw)]))
  | .transportError msg => .error msg

/-- Success test of the readiness poll: `status in [200, 302]`. -/
def pollSuccess (status : Nat) : Bool := status == 200 || status == 302

/-- Loop of `AuthentikAPI.wait_for_ready` (authentik_api.py lines 77-94).
`poll t` is the status `_request("GET", "/")` reports at elapsed time `t`
(`_request` returns errors as statuses instead of raising, so the
`except Exception: pass` around it is dead).  Each iteration runs while
`time.time() - start_time < timeout` and is followed by `time.sleep(5)`,
so polls happen at times `0, 5, 10, ...`.  The second component counts the
polls issued (instrumentation; the script returns only the Bool). -/
def wait_go (poll : Nat → Nat) (timeout t : Nat) : Bool × Nat :=
  if t < timeout then
    if pollSuccess (poll t) then (true, 1)
    else
      let r := wait_go poll timeout (t + 5)
      (r.1, r.2 + 1)
  else (false, 0)
termination_by timeout - t
decreasing_by omega

/-- `AuthentikAPI.wait_for_ready`: the boolean the script returns. -/
def wait_for_ready (poll : Nat → Nat) (timeout : Nat) : Bool :=
  (wait_go poll timeout 0).1

theorem wait_go_true_iff (poll : Nat → Nat) (timeout t : Nat) :
    (wait_go poll timeout t).1 = true ↔
      ∃ k, t + 5 * k < timeout ∧ pollSuccess (poll (t + 5 * k)) = true := by
  induction t using wait_go.induct poll timeout with
  | case1 t h hs =>
    rw [wait_go]
    simp only [if_pos h, if_pos hs]
    constructor
    · intro _
      exact ⟨0, by simpa using h, by simpa using hs⟩
    · intro _
      simp
  | case2 t h hs ih =>
    rw [wait_go]
    simp only [if_pos h, if_neg hs]
    constructor
    · intro hg
      obtain ⟨k, hk, hsk⟩ := ih.mp (by simpa using hg)
      refine ⟨k + 1, by omega, ?_⟩
      have he : t + 5 * (k + 1) = t + 5 + 5 * k := by ring
      rw [he]
      exact hsk
    · intro hex
      obtain ⟨k, hk, hsk⟩ := hex
      match k with
      | 0 =>
        rw [show t + 5 * 0 = t by ring] at hsk
        exact absurd hsk hs
      | k + 1 =>
        have hg : (wait_go poll timeout (t + 5)).1 = true := by
          apply ih.mpr
          refine ⟨k, by omega, ?_⟩
          have he : t + 5 + 5 * k = t + 5 * (k + 1) := by ring
          rw [he]
          exact hsk
        simpa using hg
  | case3 t h =>
    rw [wait_go]
    simp only [if_neg h]
    constructor
    · intro hc
      exact absurd hc (by simp)
    · intro hex
      obtain ⟨k, hk, _⟩ := hex
      omega

theorem wait_go_count (poll : Nat → Nat) (timeout t : Nat) :
    ∀ k, t + 5 * k < timeout → pollSuccess (poll (t + 5 * k)) = true →
      (∀ j, j < k → pollSuccess (poll (t + 5 * j)) = false) →
      (wait_go poll timeout t).2 = k + 1 := by
  induction t using wait_go.induct poll timeout with
  | case1 t h hs =>
    intro k hk hsk hprev
    match k with
    | 0 =>
      rw [wait_go]
      simp only [if_pos h, if_pos hs]
    | k + 1 =>
      have hfst := hprev 0 (by omega)
      rw [show t + 5 * 0 = t by ring] at hfst
      rw [hfst] at hs
      simp at hs
  | case2 t h hs ih =>
    intro k hk hsk hprev
    match k with
    | 0 =>
      rw [show t + 5 * 0 = t by ring] at hsk
      exact absurd hsk hs
    | k + 1 =>
      rw [wait_go]
      simp only [if_pos h, if_neg hs]
      have harg : t + 5 + 5 * k = t + 5 * (k + 1) := by ring
      have hrec := ih k (by omega) (by rw [harg]; exact hsk) ?hprev
      case hprev =>
        intro j hj
        have harg2 : t + 5 + 5 * j = t + 5 * (j + 1) := by ring
        rw [harg2]
        exact hprev (j + 1) (by omega)
      show (wait_go poll timeout (t + 5)).2 + 1 = k + 1 + 1
      omega
  | case3 t h =>
    intro k hk _ _
    omega

/-- A flow row of the Authentik `/api/v3/flows/instances/` listing, as the
scripts project it (`flow["pk"]`, `flow.get("slug")`,
`flow.get("designation")`). -/
structure AkFlow where
  pk : String
  slug : Option String
  designation : Option String

namespace AuthentikAPI

/-- First loop of `get_default_authorization_flow` (authentik_api.py lines
142-144): the first flow whose slug is `default-authorization-flow`. -/
def slugPass : List AkFlow → Option String
  | [] => none
  | f :: rest =>
      if f.slug == some "default-authorization-flow" then some f.pk
      else slugPass rest

/-- Fallback loop of `get_default_authorization_flow` (lines 147-149): the
first flow whose designation is `authorization`. -/
def designationPass : List AkFlow → Option String
  | [] => none
  | f :: rest =>
      if f.designation == some "authorization" then some f.pk
      else designationPass rest

/-- `AuthentikAPI.get_default_authorization_flow` (authentik_api.py lines
137-152) applied to the listing response: the slug pass runs only under
`status == 200`; the designation pass always runs over
`data.get("results", [])`.  Also returns the stderr lines printed. -/
def get_default_authorization_flow (status : Nat) (results : List AkFlow) :
    Option String × List Out :=
  match (if status == 200 then slugPass results else none) with
  | some pk => (some pk, [])
  | none =>
    match designationPass results with
    | some pk => (some pk, [])
    | none => (none, [.txt "ERROR: No authorization flow found"])

end AuthentikAPI

theorem slugPass_eq_none_iff (l : List AkFlow) :
    AuthentikAPI.slugPass l = none ↔
      ∀ f ∈ l, f.slug ≠ some "default-authorization-flow" := by
  induction l with
  | nil => simp [AuthentikAPI.slugPass]
  | cons f rest ih =>
    by_cases h : f.slug = some "default-authorization-flow"
    · simp [AuthentikAPI.slugPass, h]
    · simp [AuthentikAPI.slugPass, h, ih]

theorem slugPass_eq_some (l : List AkFlow) (pk : String) :
    AuthentikAPI.slugPass l = some pk →
      ∃ f ∈ l, f.slug = some "default-authorization-flow" ∧ f.pk = pk := by
  induction l with
  | nil => intro h; simp [AuthentikAPI.slugPass] at h
  | cons f rest ih =>
    intro h
    simp only [AuthentikAPI.slugPass] at h
    by_cases hs : (f.slug == some "default-authorization-flow") = true
    · rw [if_pos hs] at h
      exact ⟨f, List.mem_cons_self f rest, by simpa using hs, by simpa using h⟩
    · rw [if_neg hs] at h
      obtain ⟨g, hg, hgs, hgp⟩ := ih h
      exact ⟨g, List.mem_cons_of_mem _ hg, hgs, hgp⟩

theorem designationPass_eq_none_iff (l : List AkFlow) :
    AuthentikAPI.designationPass l = none ↔
      ∀ f ∈ l, f.designation ≠ some "authorization" := by
  induction l with
  | nil => simp [AuthentikAPI.designationPass]
  | cons f rest ih =>
    by_cases h : f.designation = some "authorization"
    · simp [AuthentikAPI.designationPass, h]
    · simp [AuthentikAPI.designationPass, h, ih]

theorem designationPass_eq_some (l : List AkFlow) (pk : String) :
    AuthentikAPI.designationPass l = some pk →
      ∃ f ∈ l, f.designation = some "authorization" ∧ f.pk = pk := by
  induction l with
  | nil => intro h; simp [AuthentikAPI.designationPass] at h
  | cons f rest ih =>
    intro h
    simp only [AuthentikAPI.designationPass] at h
    by_cases hs : (f.designation == some "authorization") = true
    · rw [if_pos hs] at h
      exact ⟨f, List.mem_cons_self f rest, by simpa using hs, by simpa using h⟩
    · rw [if_neg hs] at h
      obtain ⟨g, hg, hgs, hgp⟩ := ih h
      exact ⟨g, List.mem_cons_of_mem _ hg, hgs, hgp⟩

namespace AuthentikAPI

/-- `AuthentikAPI.get_default_signing_key` (authentik_api.py lines 154-165):
under a 200 listing with a non-empty result list, the pk of the first key
pair;
otherwise an error line on stderr and `None`.  `results` is the `pk`
projection of `data.get("results", [])`. -/
def get_default_signing_key (status : Nat) (results : List String) :
    Option String × List Out :=
  if status == 200 then
    match results with
    | pk :: _ => (some pk, [])
    | [] => (none, [.txt "ERROR: No signing key found"])
  else (none, [.txt "ERROR: No signing key found"])

/-- `AuthentikAPI.check_bootstrap_needed` (lines 96-100): 200 means the
initial-setup flow is still live. -/
def check_bootstrap_needed (status : Nat) : Bool := status == 200

/-- `AuthentikAPI.bootstrap_admin` (lines 102-115): prints warnings to
stderr and always returns `False` (automatic bootstrap is unimplemented). -/
def bootstrap_admin (username base_url : String) : Bool × List Out :=
  (false,
   [.txt ("Bootstrapping admin user: " ++ username),
    .txt "WARNING: Automatic bootstrap not yet implemented",
    .txt ("Please complete initial setup at: " ++ base_url ++ "/if/flow/initial-setup/")])

/-- `AuthentikAPI.create_oidc_provider` (lines 167-189): the decoded body
on a 201 response, `None` otherwise.  The stderr messages abbreviate the
interpolated response data. -/
def create_oidc_provider (name : String) (resp : Resp) : Option Json × List Out :=
  let pre := Out.txt ("Creating OIDC provider for " ++ name ++ "...")
  if resp.status == 201 then
    (some resp.body, [pre, .txt "OIDC provider created"])
  else
    (none, [pre, .txt "ERROR: Failed to create OIDC provider"])

/-- `AuthentikAPI.create_application` (lines 191-210): the decoded body on
a 201 response, `None` otherwise. -/
def create_application (name _slug : String) (resp : Resp) : Option Json × List Out :=
  let pre := Out.txt ("Creating application " ++ name ++ "...")
  if resp.status == 201 then
    (some resp.body, [pre, .txt "Application created"])
  else
    (none, [pre, .txt "ERROR: Failed to create application"])

end AuthentikAPI

/-- Python `s.rstrip("/")`. -/
def rstrip_slashes (s : String) : String :=
  String.mk ((s.toList.reverse.dropWhile (fun c => c == '/')).reverse)

/-- Python `s.rsplit("/", 2)[0]`. -/
def rsplitHead2 (s : String) : String :=
  let parts := s.splitOn "/"
  String.intercalate "/" (parts.take (max (parts.length - 2) 1))

/-- Parsed command line of authentik_api.py. -/
structure AkArgs where
  domain : String
  app_name : String
  app_slug : Option String
  redirect_uri : String
  launch_url : Option String
  token : Option String
  bootstrap_user : String
  bootstrap_password : Option String
  wait_timeout : Nat

/-- The remote responses one run of authentik_api.py observes, in call
order: the readiness-probe statuses, the initial-setup probe, the flow
listing, the certificate-keypair listing (projected to pks), the provider
create and the application create. -/
structure AkEnv where
  poll : Nat → Nat
  bootstrapStatus : Nat
  flowsStatus : Nat
  flows : List AkFlow
  keysStatus : Nat
  keys : List String
  providerResp : Resp
  appResp : Resp

/-- `main` of authentik_api.py (lines 213-299).  `Except.error` models an
uncaught Python exception (a `KeyError` on a response body).  Note that
`bootstrap_admin` constantly returns `False`, so the path that would fall
through a successful bootstrap does not exist. -/
def authentik_main (args : AkArgs) (env : AkEnv) : Except String RunOut :=
  let app_slug := args.app_slug.getD (strLower args.app_name)
  let _launch_url := args.launch_url.getD (rsplitHead2 args.redirect_uri)
  let base_url := rstrip_slashes args.domain
  let waitStart := Out.txt ("Waiting for Authentik at " ++ base_url ++ " to be ready...")
  if wait_for_ready env.poll args.wait_timeout then
    let err0 := [waitStart, Out.txt "Authentik is ready!"]
    if falsyStr args.token then
      if AuthentikAPI.check_bootstrap_needed env.bootstrapStatus then
        if falsyStr args.bootstrap_password then
          .ok ⟨1,
            [.js (.obj
              [("error", .str "Bootstrap needed but no password provided"),
               ("action_required",
                .str ("Visit " ++ args.domain ++ "/if/flow/initial-setup/ to complete setup")),
               ("next_step", .str "Create service account and provide --token")])],
            err0⟩
        else
          let boot := AuthentikAPI.bootstrap_admin args.bootstrap_user base_url
          .ok ⟨1,
            [.js (.obj
              [("error", .str "Bootstrap not yet automated"),
               ("action_required",
                .str ("Visit " ++ args.domain ++ "/if/flow/initial-setup/ manually")),
               ("instructions",
                .arr [.str ("1. Create admin user: " ++ args.bootstrap_user),
                      .str "2. Create API token in admin UI",
                      .str "3. Re-run with --token <token>"])])],
            err0 ++ boot.2⟩
      else
        .ok ⟨1, [], err0 ++ [.txt "ERROR: No API token provided and bootstrap needed"]⟩
    else
      let fl := AuthentikAPI.get_default_authorization_flow env.flowsStatus env.flows
      let ky := AuthentikAPI.get_default_signing_key env.keysStatus env.keys
      let err1 := err0 ++ fl.2 ++ ky.2
      if falsyStr fl.1 || falsyStr ky.1 then
        .ok ⟨1, [.js (.obj [("error", .str "Failed to get required Authentik configuration")])],
             err1⟩
      else
        let pr := AuthentikAPI.create_oidc_provider args.app_name env.providerResp
        match pr.1 with
        | none =>
          .ok ⟨1, [.js (.obj [("error", .str "Failed to create OIDC provider")])], err1 ++ pr.2⟩
        | some provider =>
          if !provider.truthy then
            .ok ⟨1, [.js (.obj [("error", .str "Failed to create OIDC provider")])], err1 ++ pr.2⟩
          else
            match provider.get? "pk" with
            | none => .error "KeyError: pk"
            | some ppk =>
              let ap := AuthentikAPI.create_application args.app_name app_slug env.appResp
              match ap.1 with
              | none =>
                .ok ⟨1, [.js (.obj [("error", .str "Failed to create application")])],
                     err1 ++ pr.2 ++ ap.2⟩
              | some application =>
                if !application.truthy then
                  .ok ⟨1, [.js (.obj [("error", .str "Failed to create application")])],
                       err1 ++ pr.2 ++ ap.2⟩
                else
                  match application.get? "pk", provider.get? "client_id",
                        provider.get? "client_secret" with
                  | some apk, some cid, some csec =>
                    .ok ⟨0,
                      [.js (.obj
                        [("success", .boolean true),
                         ("provider_id", ppk),
                         ("application_id", apk),
                         ("client_id", cid),
                         ("client_secret", csec),
                         ("discovery_uri",
                          .str (args.domain ++ "/application/o/" ++ app_slug ++
                                "/.well-known/openid-configuration")),
                         ("issuer",
                          .str (args.domain ++ "/application/o/" ++ app_slug ++ "/"))])],
                      err1 ++ pr.2 ++ ap.2⟩
                  | _, _, _ => .error "KeyError on provider or application body"
  else
    .ok ⟨1, [.js (.obj [("error", .str "Authentik not ready")])],
         [waitStart,
          .txt ("Timeout waiting for Authentik after " ++ toString args.wait_timeout ++ "s")]⟩

/-- One Management-API request, with the bearer credential it carried. -/
structure ZCall where
  bearer : Option String
  path : String

namespace ZitadelAPI

/-- A project row of the `/management/v1/projects/_search` result, as the
scripts project it (`project["id"]`, `project.get("name")`). -/
structure Project where
  id : String
  name : Option String

/-- Search loop of `ZitadelAPI.find_project` (zitadel_api.py lines 95-97):
the id of the first project whose name equals `name`. -/
def find_project_go (name : String) : List Project → Option String
  | [] => none
  | p :: rest => if p.name == some name then some p.id else find_project_go name rest

/-- `ZitadelAPI.find_project` (zitadel_api.py lines 83-98): searches only
under a 200 response, else `None`. -/
def find_project (name : String) (searchStatus : Nat) (projects : List Project) :
    Option String :=
  if searchStatus == 200 then find_project_go name projects else none

/-- `ZitadelAPI.create_project` (zitadel_api.py lines 64-81): on 200/201 the
created id; on 409 fall back to `find_project`; otherwise raise.  The call
trace records the POSTs issued and the bearer they carried. -/
def create_project (name : String) (bearer : Option String) (createResp : Resp)
    (searchStatus : Nat) (projects : List Project) :
    Except String (Option String × List ZCall) :=
  let c0 : ZCall := ⟨bearer, "/management/v1/projects"⟩
  if createResp.status == 200 || createResp.status == 201 then
    .ok (createResp.body.getStr? "id", [c0])
  else if createResp.status == 409 then
    .ok (find_project name searchStatus projects,
         [c0, ⟨bearer, "/management/v1/projects/_search"⟩])
  else
    .error ("Failed to create project: " ++ toString createResp.status ++ " - " ++
            createResp.text)

/-- Payload of the JWT assertion built by `ZitadelAPI.get_access_token`
(zitadel_api.py lines 34-41). -/
structure JwtPayload where
  iss : String
  sub : String
  aud : String
  iat : Nat
  exp : Nat

/-- The `payload` dict of zitadel_api.py lines 35-41. -/
def assertion_payload (user_id domain : String) (now : Nat) : JwtPayload :=
  ⟨user_id, user_id, domain, now, now + 3600⟩

/-- `ZitadelAPI.get_access_token` (zitadel_api.py lines 31-62): builds the
assertion from `assertion_payload` (the RS256 signature itself is outside
the model), posts it to `/oauth/v2/token`, and on a 200 response returns
`response.json().get("access_token")`; otherwise raises. -/
def get_access_token (user_id domain : String) (now : Nat) (tokenResp : Resp) :
    Except String (Option String) :=
  let _payload := assertion_payload user_id domain now
  if tokenResp.status == 200 then .ok (tokenResp.body.getStr? "access_token")
  else
    .error ("Failed to get access token: " ++ toString tokenResp.status ++ " - " ++
            tokenResp.text)

/-- `ZitadelAPI.create_oidc_app` (zitadel_api.py lines 100-139): the decoded
body on 200/201, otherwise raise. -/
def create_oidc_app (bearer : Option String) (project_id : Option String) (resp : Resp) :
    Except String (Json × ZCall) :=
  let c : ZCall := ⟨bearer, "/management/v1/projects/" ++ project_id.getD "None" ++ "/apps/oidc"⟩
  if resp.status == 200 || resp.status == 201 then .ok (resp.body, c)
  else
    .error ("Failed to create OIDC app: " ++ toString resp.status ++ " - " ++ resp.text)

end ZitadelAPI

/-- The remote responses one run of zitadel_api.py observes, in call order. -/
structure ZEnv where
  tokenResp : Resp
  createProjectResp : Resp
  searchStatus : Nat
  projects : List ZitadelAPI.Project
  createAppResp : Resp

/-- The `try` block of zitadel_api.py `main` (lines 153-174).  `user_id` is
the `userId` of the JWT key file.  The call trace records the bearer used
on each Management-API request. -/
def zitadel_try (user_id : String) (now : Nat) (domain redirect_uri : String)
    (env : ZEnv) : Except String (List Out × List ZCall) :=
  match ZitadelAPI.get_access_token user_id domain now env.tokenResp with
  | .error e => .error e
  | .ok access_token =>
    match ZitadelAPI.create_project "SSO Applications" access_token env.createProjectResp
        env.searchStatus env.projects with
    | .error e => .error e
    | .ok (project_id, calls1) =>
      match ZitadelAPI.create_oidc_app access_token project_id env.createAppResp with
      | .error e => .error e
      | .ok (result, c2) =>
        .ok ([Out.js (.obj
               [("status", .str "created"),
                ("app_id", result.getD "appId" .null),
                ("client_id", result.getD "clientId" .null),
                ("client_secret", result.getD "clientSecret" .null),
                ("redirect_uri", .str redirect_uri)])],
             calls1 ++ [c2])

/-- `main` of zitadel_api.py (lines 142-178): a bad argv prints a plain-text
usage line to stdout and exits 1; any exception from the `try` block prints
a plain-text `Error: ...` line to stderr and exits 1 — no JSON error object
is produced on failure. -/
def zitadel_main (argv : List String) (user_id : String) (now : Nat) (env : ZEnv) :
    RunOut × List ZCall :=
  if argv.length < 5 then
    (⟨1, [.txt "Usage: zitadel_api.py <domain> <jwt_key_path> <app_name> <redirect_uri>"], []⟩,
     [])
  else
    let domain := argv.getD 1 ""
    let redirect_uri := argv.getD 4 ""
    match zitadel_try user_id now domain redirect_uri env with
    | .ok (outLines, calls) => (⟨0, outLines, []⟩, calls)
    | .error e => (⟨1, [], [.txt ("Error: " ++ e)]⟩, [])

/-- The remote responses one run of configure_2fa_enforcement.py observes,
in call order. -/
structure C2faEnv where
  validateResp : Resp
  totpResp : Resp
  patchResp : Resp

/-- `main` of configure_2fa_enforcement.py (lines 33-92): every error path
emits a single JSON object with an `error` key on stderr and exits 1; the
success JSON goes to stdout. -/
def configure_2fa_main (argv : List String) (env : C2faEnv) : Except String RunOut :=
  if argv.length != 3 then
    .ok ⟨1, [],
      [.js (.obj [("error", .str "Usage: configure_2fa_enforcement.py <base_url> <api_token>")])]⟩
  else if env.validateResp.status != 200 then
    .ok ⟨1, [],
      [.js (.obj [("error", .str "Failed to list authenticator validate stages"),
                  ("details", env.validateResp.body)])]⟩
  else
    match (env.validateResp.body.rows "results").find?
        (fun s => strIn "default-authentication-mfa-validation" (strLower (jStrD s "name"))) with
    | none =>
      .ok ⟨1, [],
        [.js (.obj [("error", .str "default-authentication-mfa-validation stage not found")])]⟩
    | some mfa_stage =>
      match mfa_stage.get? "pk" with
      | none => .error "KeyError: pk"
      | some stage_pk =>
        if env.totpResp.status != 200 then
          .ok ⟨1, [],
            [.js (.obj [("error", .str "Failed to list TOTP setup stages"),
                        ("details", env.totpResp.body)])]⟩
        else
          match (env.totpResp.body.rows "results").find?
              (fun s => strIn "setup" (strLower (jStrD s "name"))) with
          | none => .ok ⟨1, [], [.js (.obj [("error", .str "TOTP setup stage not found")])]⟩
          | some totp_stage =>
            match totp_stage.get? "pk" with
            | none => .error "KeyError: pk"
            | some _totp_setup_pk =>
              match mfa_stage.get? "name" with
              | none => .error "KeyError: name"
              | some stage_name =>
                if !(env.patchResp.status == 200 || env.patchResp.status == 201) then
                  .ok ⟨1, [],
                    [.js (.obj [("error", .str "Failed to update MFA validation stage"),
                                ("details", env.patchResp.body)])]⟩
                else
                  .ok ⟨0,
                    [.js (.obj [("success", .boolean true),
                                ("message", .str "2FA enforcement configured"),
                                ("stage_name", stage_name),
                                ("stage_pk", stage_pk),
                                ("note", .str "Users will be forced to configure TOTP on login")])],
                    []⟩

/-- The remote responses one run of configure_invitation_flow.py observes,
in call order. -/
structure CifEnv where
  flowsResp : Resp
  stagesResp : Resp
  createStageResp : Resp
  bindingsResp : Resp
  createBindingResp : Resp

/-- Steps 4-5 and the final report of configure_invitation_flow.py `main`
(lines 77-112), from the resolved invitation stage onward.  The two
counters are the numbers of stage-create and binding-create POSTs. -/
def cif_bind_and_report (env : CifEnv) (flow_slug : Json) (stage : Json)
    (stageCreates : Nat) : Except String (RunOut × Nat × Nat) :=
  match stage.get? "pk" with
  | none => .error "KeyError: pk"
  | some stage_pk =>
    if env.bindingsResp.status != 200 then
      .ok (⟨1, [],
        [.js (.obj [("error", .str "Failed to list flow bindings"),
                    ("details", env.bindingsResp.body)])]⟩, stageCreates, 0)
    else
      let bindingRows := env.bindingsResp.body.rows "results"
      match bindingRows.find?
          (fun b => match b.get? "stage" with
                    | some v => jScalarEq v stage_pk
                    | none => false) with
      | some _binding =>
        .ok (⟨0,
          [.js (.obj [("success", .boolean true),
                      ("message", .str "Invitation flow configured"),
                      ("flow_slug", flow_slug),
                      ("stage_pk", stage_pk),
                      ("note", .str "Invitation stage bound to enrollment flow")])],
          []⟩, stageCreates, 0)
      | none =>
        let _max_order := (bindingRows.map (fun b => jIntD b "order" 0)).foldl max 0
        if !(env.createBindingResp.status == 200 || env.createBindingResp.status == 201) then
          .ok (⟨1, [],
            [.js (.obj [("error", .str "Failed to bind invitation stage to flow"),
                        ("details", env.createBindingResp.body)])]⟩, stageCreates, 1)
        else
          .ok (⟨0,
            [.js (.obj [("success", .boolean true),
                        ("message", .str "Invitation flow configured"),
                        ("flow_slug", flow_slug),
                        ("stage_pk", stage_pk),
                        ("note", .str "Invitation stage bound to enrollment flow")])],
            []⟩, stageCreates, 1)

/-- `main` of configure_invitation_flow.py (lines 33-115). -/
def configure_invitation_flow_main (argv : List String) (env : CifEnv) :
    Except String (RunOut × Nat × Nat) :=
  if argv.length != 3 then
    .ok (⟨1, [],
      [.js (.obj [("error", .str "Usage: configure_invitation_flow.py <base_url> <api_token>")])]⟩,
      0, 0)
  else if env.flowsResp.status != 200 then
    .ok (⟨1, [],
      [.js (.obj [("error", .str "Failed to list flows"),
                  ("details", env.flowsResp.body)])]⟩, 0, 0)
  else
    match (env.flowsResp.body.rows "results").find?
        (fun f => jStrIs f "designation" "enrollment") with
    | none => .ok (⟨1, [], [.js (.obj [("error", .str "No enrollment flow found")])]⟩, 0, 0)
    | some enrollment_flow =>
      match enrollment_flow.get? "slug", enrollment_flow.get? "pk" with
      | some flow_slug, some _flow_pk =>
        if env.stagesResp.status != 200 then
          .ok (⟨1, [],
            [.js (.obj [("error", .str "Failed to list invitation stages"),
                        ("details", env.stagesResp.body)])]⟩, 0, 0)
        else
          match (env.stagesResp.body.rows "results").find?
              (fun s => jStrIs s "name" "default-enrollment-invitation") with
          | some invitation_stage => cif_bind_and_report env flow_slug invitation_stage 0
          | none =>
            if !(env.createStageResp.status == 200 || env.createStageResp.status == 201) then
              .ok (⟨1, [],
                [.js (.obj [("error", .str "Failed to create invitation stage"),
                            ("details", env.createStageResp.body)])]⟩, 1, 0)
            else cif_bind_and_report env flow_slug env.createStageResp.body 1
      | _, _ => .error "KeyError: slug or pk"

/-- `main` of create_invitation_flow.py (lines 33-74).  The script issues no
create call; it only reports an existing flow.  Note the usage error goes
to stdout here (line 35 has no stderr redirect). -/
def create_invitation_flow_main (argv : List String) (flowsResp : Resp) :
    Except String RunOut :=
  if argv.length != 3 then
    .ok ⟨1,
      [.js (.obj [("error", .str "Usage: create_invitation_flow.py <base_url> <api_token>")])],
      []⟩
  else if flowsResp.status != 200 then
    .ok ⟨1, [],
      [.js (.obj [("error", .str "Failed to list flows"), ("details", flowsResp.body)])]⟩
  else
    match (flowsResp.body.rows "results").find?
        (fun f => strIn "invitation" (strLower (jStrD f "slug"))) with
    | some existing_invitation =>
      match existing_invitation.get? "pk" with
      | none => .error "KeyError: pk"
      | some pk =>
        .ok ⟨0,
          [.js (.obj [("success", .boolean true),
                      ("message", .str "Invitation flow already exists"),
                      ("flow_id", pk)])],
          []⟩
    | none =>
      match (flowsResp.body.rows "results").find?
          (fun f => jStrIs f "designation" "enrollment") with
      | some enrollment_flow =>
        match enrollment_flow.get? "pk", enrollment_flow.get? "slug" with
        | some pk, some slug =>
          .ok ⟨0,
            [.js (.obj [("success", .boolean true),
                        ("message", .str "Using enrollment flow for invitations"),
                        ("flow_id", pk),
                        ("flow_slug", slug)])],
            []⟩
        | _, _ => .error "KeyError: pk or slug"
      | none => .ok ⟨1, [], [.js (.obj [("error", .str "No enrollment flow found")])]⟩

/-- `main` of create_recovery_flow.py (lines 33-67).  The script never
issues a create call: with no matching recovery flow it prints an
informational JSON (without any flow identifier) and exits 0.  The second
component counts the POST (create) requests the run issues; the script
performs only the single GET listing, so it is 0 in every branch. -/
def create_recovery_flow_main (argv : List String) (flowsResp : Resp) :
    Except String (RunOut × Nat) :=
  if argv.length != 3 then
    .ok (⟨1,
      [.js (.obj [("error", .str "Usage: create_recovery_flow.py <base_url> <api_token>")])],
      []⟩, 0)
  else if flowsResp.status != 200 then
    .ok (⟨1, [],
      [.js (.obj [("error", .str "Failed to list flows"), ("details", flowsResp.body)])]⟩, 0)
  else
    match (flowsResp.body.rows "results").find?
        (fun f => jStrIs f "slug" "recovery-flow" || jStrIs f "designation" "recovery") with
    | some existing_recovery =>
      match existing_recovery.get? "pk", existing_recovery.get? "slug" with
      | some pk, some slug =>
        .ok (⟨0,
          [.js (.obj [("success", .boolean true),
                      ("message", .str "Recovery flow already exists"),
                      ("flow_id", pk),
                      ("flow_slug", slug)])],
          []⟩, 0)
      | _, _ => .error "KeyError: pk or slug"
    | none =>
      .ok (⟨0,
        [.js (.obj [("success", .boolean true),
                    ("message",
                     .str "No recovery flow found - will use default Authentik flow after manual setup"),
                    ("note",
                     .str "Admin should configure recovery flow in Authentik UI: Flows & Stages")])],
        []⟩, 0)

/-- An app row of the Zitadel apps `_search` result, as create_oidc_app.py
projects it (`app.get("name")`, `app.get("id")`). -/
structure ZApp where
  id : Option String
  name : Option String

namespace ZitadelOIDCManager

/-- `ZitadelOIDCManager.create_project` (create_oidc_app.py lines 27-37):
`response.json().get("id")` on 200/201, else `None` (no raise). -/
def create_project (resp : Resp) : Option String :=
  if resp.status == 200 || resp.status == 201 then resp.body.getStr? "id" else none

/-- `ZitadelOIDCManager.get_or_create_project` (create_oidc_app.py lines
39-56): under a 200 search, the first name match, else the first listed
project if any; only with an empty or failed listing is a create issued.
The second component counts the project-create POSTs. -/
def get_or_create_project (name : String) (searchStatus : Nat)
    (projects : List ZitadelAPI.Project) (createResp : Resp) : Option String × Nat :=
  if searchStatus == 200 then
    match ZitadelAPI.find_project_go name projects with
    | some pid => (some pid, 0)
    | none =>
      match projects with
      | p :: _ => (some p.id, 0)
      | [] => (create_project createResp, 1)
  else (create_project createResp, 1)

/-- `ZitadelOIDCManager.check_app_exists` (create_oidc_app.py lines 58-68):
the first app whose name equals `app_name`, under a 200 search. -/
def check_app_exists (searchStatus : Nat) (apps : List ZApp) (app_name : String) :
    Option ZApp :=
  if searchStatus == 200 then apps.find? (fun a => a.name == some app_name) else none

/-- `ZitadelOIDCManager.create_oidc_app` (create_oidc_app.py lines 70-107):
the decoded body on 200/201, otherwise raise. -/
def create_oidc_app (resp : Resp) : Except String Json :=
  if resp.status == 200 || resp.status == 201 then .ok resp.body
  else .error ("Failed to create OIDC app: " ++ toString resp.status ++ " - " ++ resp.text)

end ZitadelOIDCManager

/-- The remote responses one run of create_oidc_app.py observes, in call
order. -/
structure CoaEnv where
  projectSearchStatus : Nat
  projects : List ZitadelAPI.Project
  createProjectResp : Resp
  appSearchStatus : Nat
  apps : List ZApp
  createAppResp : Resp

/-- `main` of create_oidc_app.py (lines 110-165).  The two counters are the
numbers of project-create and app-create POSTs issued. -/
def create_oidc_app_main (argv : List String) (env : CoaEnv) : RunOut × Nat × Nat :=
  if argv.length < 5 then
    (⟨1, [.txt "Usage: create_oidc_app.py <domain> <pat_token> <app_name> <redirect_uri>"], []⟩,
     0, 0)
  else
    let app_name := argv.getD 3 ""
    let redirect_uri := argv.getD 4 ""
    let proj := ZitadelOIDCManager.get_or_create_project "SSO Applications"
      env.projectSearchStatus env.projects env.createProjectResp
    match proj.1 with
    | none => (⟨1, [], [.txt "Error: Failed to get or create project"]⟩, proj.2, 0)
    | some project_id =>
      if project_id == "" then
        (⟨1, [], [.txt "Error: Failed to get or create project"]⟩, proj.2, 0)
      else
        match ZitadelOIDCManager.check_app_exists env.appSearchStatus env.apps app_name with
        | some existing_app =>
          (⟨0,
            [.js (.obj [("status", .str "exists"),
                        ("app_id", (existing_app.id.map Json.str).getD .null),
                        ("message", .str ("App " ++ app_name ++ " already exists"))])],
            []⟩, proj.2, 0)
        | none =>
          match ZitadelOIDCManager.create_oidc_app env.createAppResp with
          | .ok result =>
            (⟨0,
              [.js (.obj [("status", .str "created"),
                          ("app_id", result.getD "appId" .null),
                          ("client_id", result.getD "clientId" .null),
                          ("client_secret", result.getD "clientSecret" .null),
                          ("redirect_uri", .str redirect_uri)])],
              []⟩, proj.2, 1)
          | .error e => (⟨1, [], [.txt ("Error: " ++ e)]⟩, proj.2, 1)

/-- A user row of the Zitadel users `_search` result, as
bootstrap_api_token.py projects it (`users[0].get("id")`). -/
structure ZUser where
  id : Option String

/-- The remote responses one run of bootstrap_api_token.py observes. -/
structure BootEnv where
  loginHasCookie : Bool
  createUserResp : Resp
  userSearchStatus : Nat
  userSearchUsers : List ZUser
  patResp : Resp

/-- `login_and_get_session` of bootstrap_api_token.py (lines 13-46): prints
its diagnostics to stdout (the script never writes to stderr); succeeds
when the login response set a cookie. -/
def login_and_get_session (domain : String) (hasCookie : Bool) : Bool × List Out :=
  let pre := Out.txt ("📡 Initiating login to " ++ domain ++ "...")
  if hasCookie then (true, [pre, .txt "✅ Login successful!"])
  else (false, [pre, .txt "❌ Login failed.", .txt "Response: ..."])

/-- `create_machine_user` of bootstrap_api_token.py (lines 48-88): 409 is
handled by searching for the existing `api-automation` user. -/
def boot_create_machine_user (env : BootEnv) : Option String × List Out :=
  let pre := Out.txt "🤖 Creating API automation service user..."
  if env.createUserResp.status == 200 || env.createUserResp.status == 201 then
    (env.createUserResp.body.getStr? "userId", [pre, .txt "✅ Machine user created"])
  else if env.createUserResp.status == 409 then
    let pre2 := [pre, .txt "ℹ️  Machine user already exists"]
    if env.userSearchStatus == 200 then
      match env.userSearchUsers with
      | u :: _ => (u.id, pre2 ++ [.txt "✅ Found existing user"])
      | [] => (none, pre2)
    else (none, pre2)
  else (none, [pre, .txt "❌ Failed to create machine user", .txt "Response: ..."])

/-- `create_pat` of bootstrap_api_token.py (lines 90-115). -/
def boot_create_pat (patResp : Resp) : Option String × List Out :=
  let pre := Out.txt "🔑 Creating Personal Access Token..."
  if patResp.status == 200 || patResp.status == 201 then
    match patResp.body.getStr? "token" with
    | some tok => (some tok, [pre, .txt "✅ Personal Access Token created successfully!"])
    | none => (none, [pre, .txt "⚠️  PAT created but token not in response", .txt "Response: ..."])
  else (none, [pre, .txt "❌ Failed to create PAT", .txt "Response: ..."])

/-- `main` of bootstrap_api_token.py (lines 117-171): every line — the
usage message, the banner, all progress diagnostics, and the final block
carrying the minted token — is plain text printed to stdout; the script
never emits JSON and never writes to stderr. -/
def bootstrap_main (argv : List String) (env : BootEnv) : RunOut :=
  if argv.length != 4 then
    ⟨1,
     [.txt "Usage: python3 bootstrap_api_token.py <domain> <admin_username> <admin_password>",
      .txt "Example: python3 bootstrap_api_token.py zitadel.test.vrije.cloud admin password123"],
     []⟩
  else
    let domain := argv.getD 1 ""
    let banner := Out.txt ("🚀 Zitadel API Token Bootstrap: Domain: " ++ domain)
    let login := login_and_get_session domain env.loginHasCookie
    if login.1 = false then
      ⟨1, [banner] ++ login.2 ++ [.txt "❌ Failed to establish session"], []⟩
    else
      let cu := boot_create_machine_user env
      match cu.1 with
      | none =>
        ⟨1, [banner] ++ login.2 ++ cu.2 ++ [.txt "❌ Failed to create or find machine user"], []⟩
      | some _user_id =>
        let pat := boot_create_pat env.patResp
        match pat.1 with
        | none =>
          ⟨1, [banner] ++ login.2 ++ cu.2 ++ pat.2 ++
              [.txt "❌ Failed to create Personal Access Token"], []⟩
        | some token =>
          ⟨0, [banner] ++ login.2 ++ cu.2 ++ pat.2 ++
              [.txt ("✅ SUCCESS! API automation is ready. 📋 Personal Access Token: " ++ token)],
           []⟩

/-- C3 counterexample: the `api_request` helper of
configure_invitation_flow.py (and its four copies) does not return the
sentinel `(0, error-payload)` on a transport-level failure — the
`URLError` propagates to the caller (`Except.error`), because only
`HTTPError` is caught. -/
theorem api_request_transport_counterexample :
    api_request (.transportError "urlopen error Connection refused") =
      Except.error "urlopen error Connection refused" := rfl

/-- C3 (amended): `AuthentikAPI._request` returns the sentinel
the sentinel pair of status 0 and error payload on transport failure and
never raises on any outcome,
while the standalone `api_request` helper re-raises transport failures. -/
theorem request_transport_sentinel (msg : String) (o : HttpOutcome) :
    AuthentikAPI._request (.transportError msg) =
      .ok (0, .obj [("error", .str msg)]) ∧
    (∃ r, AuthentikAPI._request o = .ok r) ∧
    api_request (.transportError msg) = .error msg := by
  refine ⟨rfl, ?_, rfl⟩
  cases o <;> exact ⟨_, rfl⟩

/-- C4: `wait_for_ready` returns `true` iff some poll within the timeout
window observes status 200 or 302; moreover, when the first success is the
`k`-th poll, exactly `k + 1` polls are issued (none after the success).
With no successful poll before the timeout elapses it returns `false`
(the `iff`, right-to-left contrapositive). -/
theorem wait_for_ready_spec (poll : Nat → Nat) (timeout : Nat) :
    (wait_for_ready poll timeout = true ↔
      ∃ k, 5 * k < timeout ∧ pollSuccess (poll (5 * k)) = true) ∧
    (∀ k, 5 * k < timeout → pollSuccess (poll (5 * k)) = true →
      (∀ j, j < k → pollSuccess (poll (5 * j)) = false) →
      (wait_go poll timeout 0).2 = k + 1) := by
  constructor
  · have h := wait_go_true_iff poll timeout 0
    simpa using h
  · intro k hk hs hprev
    have h := wait_go_count poll timeout 0 k (by simpa using hk) (by simpa using hs)
      (fun j hj => by simpa using hprev j hj)
    simpa using h

/-- Witness for C4: with polls failing at times 0 and 5 and succeeding at
time 10 under a 30s timeout, the poller returns true after exactly three
polls. -/
theorem wait_for_ready_spec_witness :
    wait_for_ready (fun t => if t == 10 then 200 else 503) 30 = true ∧
    (wait_go (fun t => if t == 10 then 200 else 503) 30 0).2 = 2 + 1 := by
  have h := wait_for_ready_spec (fun t => if t == 10 then 200 else 503) 30
  constructor
  · exact h.1.mpr ⟨2, by decide, by decide⟩
  · exact h.2 2 (by decide) (by decide)
      (by intro j hj; interval_cases j <;> decide)

/-- C10: under a 200 listing, `get_default_authorization_flow` returns the
pk of a flow slugged `default-authorization-flow` when one is listed; only
when no flow carries that slug does it fall back to a flow designated
`authorization`; and it returns `None` when neither is present. -/
theorem default_authorization_flow_lookup (status : Nat) (results : List AkFlow)
    (h200 : status = 200) :
    ((∃ f ∈ results, f.slug = some "default-authorization-flow") →
      ∃ f ∈ results, f.slug = some "default-authorization-flow" ∧
        (AuthentikAPI.get_default_authorization_flow status results).1 = some f.pk) ∧
    ((∀ f ∈ results, f.slug ≠ some "default-authorization-flow") →
      (∃ f ∈ results, f.designation = some "authorization") →
      ∃ f ∈ results, f.designation = some "authorization" ∧
        (AuthentikAPI.get_default_authorization_flow status results).1 = some f.pk) ∧
    ((∀ f ∈ results, f.slug ≠ some "default-authorization-flow" ∧
        f.designation ≠ some "authorization") →
      (AuthentikAPI.get_default_authorization_flow status results).1 = none) := by
  subst h200
  refine ⟨?_, ?_, ?_⟩
  · intro hex
    have hne : AuthentikAPI.slugPass results ≠ none := by
      rw [ne_eq, slugPass_eq_none_iff]
      push_neg
      obtain ⟨f, hf, hfs⟩ := hex
      exact ⟨f, hf, hfs⟩
    obtain ⟨pk, hpk⟩ := Option.ne_none_iff_exists'.mp hne
    obtain ⟨g, hg, hgs, hgp⟩ := slugPass_eq_some results pk hpk
    refine ⟨g, hg, hgs, ?_⟩
    simp [AuthentikAPI.get_default_authorization_flow, hpk, hgp]
  · intro hall hex
    have hslug : AuthentikAPI.slugPass results = none :=
      (slugPass_eq_none_iff results).mpr hall
    have hne : AuthentikAPI.designationPass results ≠ none := by
      rw [ne_eq, designationPass_eq_none_iff]
      push_neg
      obtain ⟨f, hf, hfd⟩ := hex
      exact ⟨f, hf, hfd⟩
    obtain ⟨pk, hpk⟩ := Option.ne_none_iff_exists'.mp hne
    obtain ⟨g, hg, hgd, hgp⟩ := designationPass_eq_some results pk hpk
    refine ⟨g, hg, hgd, ?_⟩
    simp [AuthentikAPI.get_default_authorization_flow, hslug, hpk, hgp]
  · intro hall
    have hslug : AuthentikAPI.slugPass results = none :=
      (slugPass_eq_none_iff results).mpr (fun f hf => (hall f hf).1)
    have hdes : AuthentikAPI.designationPass results = none :=
      (designationPass_eq_none_iff results).mpr (fun f hf => (hall f hf).2)
    simp [AuthentikAPI.get_default_authorization_flow, hslug, hdes]

/-- Witness for C10 on a concrete two-flow listing: the slug match wins
over the earlier designation match. -/
theorem default_authorization_flow_lookup_witness :
    (AuthentikAPI.get_default_authorization_flow 200
      [⟨"f-early", some "other-flow", some "authorization"⟩,
       ⟨"f-slug", some "default-authorization-flow", some "authorization"⟩]).1 =
      some "f-slug" := by
  obtain ⟨f, hf, hfs, hout⟩ :=
    (default_authorization_flow_lookup 200
      [⟨"f-early", some "other-flow", some "authorization"⟩,
       ⟨"f-slug", some "default-authorization-flow", some "authorization"⟩] rfl).1
      ⟨⟨"f-slug", some "default-authorization-flow", some "authorization"⟩,
       by simp, rfl⟩
  have hf2 : f = (⟨"f-early", some "other-flow", some "authorization"⟩ : AkFlow) ∨
      f = (⟨"f-slug", some "default-authorization-flow", some "authorization"⟩ : AkFlow) := by
    simpa using hf
  rcases hf2 with rfl | rfl
  · exact absurd hfs (by decide)
  · exact hout

/-- C8: the JWT assertion payload built by `get_access_token` has issuer
and subject equal to the service-account user id, audience equal to the
provider domain, and expiry 3600 seconds after issuance; exchanging it at
the token endpoint under a 200 response yields the access token of the
response body; and the main flow then carries exactly that bearer on every
subsequent Management-API call. -/
theorem jwt_assertion_token (user_id domain redirect_uri : String) (now : Nat)
    (env : ZEnv) (t : String)
    (h200 : env.tokenResp.status = 200)
    (htok : env.tokenResp.body.getStr? "access_token" = some t)
    (hproj : env.createProjectResp.status = 201)
    (happ : env.createAppResp.status = 201) :
    ((ZitadelAPI.assertion_payload user_id domain now).iss = user_id ∧
     (ZitadelAPI.assertion_payload user_id domain now).sub = user_id ∧
     (ZitadelAPI.assertion_payload user_id domain now).aud = domain ∧
     (ZitadelAPI.assertion_payload user_id domain now).iat = now ∧
     (ZitadelAPI.assertion_payload user_id domain now).exp = now + 3600) ∧
    ZitadelAPI.get_access_token user_id domain now env.tokenResp = .ok (some t) ∧
    (∃ outs calls, zitadel_try user_id now domain redirect_uri env = .ok (outs, calls) ∧
      calls ≠ [] ∧ ∀ c ∈ calls, c.bearer = some t) := by
  have hga : ZitadelAPI.get_access_token user_id domain now env.tokenResp = .ok (some t) := by
    simp [ZitadelAPI.get_access_token, h200, htok]
  refine ⟨⟨rfl, rfl, rfl, rfl, rfl⟩, hga, ?_⟩
  have htry : zitadel_try user_id now domain redirect_uri env =
      .ok ([Out.js (.obj
             [("status", .str "created"),
              ("app_id", env.createAppResp.body.getD "appId" .null),
              ("client_id", env.createAppResp.body.getD "clientId" .null),
              ("client_secret", env.createAppResp.body.getD "clientSecret" .null),
              ("redirect_uri", .str redirect_uri)])],
           [⟨some t, "/management/v1/projects"⟩,
            ⟨some t, "/management/v1/projects/" ++
              (env.createProjectResp.body.getStr? "id").getD "None" ++ "/apps/oidc"⟩]) := by
    simp [zitadel_try, hga, ZitadelAPI.create_project, ZitadelAPI.create_oidc_app, hproj, happ]
  refine ⟨_, _, htry, by simp, ?_⟩
  intro c hc
  have hc2 : c = (⟨some t, "/management/v1/projects"⟩ : ZCall) ∨
      c = (⟨some t, "/management/v1/projects/" ++
            (env.createProjectResp.body.getStr? "id").getD "None" ++ "/apps/oidc"⟩ : ZCall) := by
    simpa using hc
  rcases hc2 with rfl | rfl <;> rfl

/-- Witness for C8 at concrete inputs. -/
theorem jwt_assertion_token_witness :
    ZitadelAPI.get_access_token "user-1" "id.example.com" 1000
      ⟨200, .obj [("access_token", .str "tok-abc")], ""⟩ = .ok (some "tok-abc") ∧
    (ZitadelAPI.assertion_payload "user-1" "id.example.com" 1000).exp = 1000 + 3600 := by
  have h := jwt_assertion_token "user-1" "id.example.com" "https://cb" 1000
    ⟨⟨200, .obj [("access_token", .str "tok-abc")], ""⟩,
     ⟨201, .obj [("id", .str "p1")], ""⟩, 200, [],
     ⟨201, .obj [("appId", .str "a1")], ""⟩⟩ "tok-abc" rfl rfl rfl rfl
  exact ⟨h.2.1, h.1.2.2.2.2⟩

theorem find_project_go_first (name : String) (l : List ZitadelAPI.Project) :
    (∃ p ∈ l, p.name = some name) →
    ∃ p ∈ l, p.name = some name ∧ ZitadelAPI.find_project_go name l = some p.id := by
  induction l with
  | nil => intro h; simp at h
  | cons p rest ih =>
    intro hex
    by_cases hp : (p.name == some name) = true
    · exact ⟨p, List.mem_cons_self p rest, by simpa using hp,
             by simp [ZitadelAPI.find_project_go, hp]⟩
    · have hex2 : ∃ q ∈ rest, q.name = some name := by
        obtain ⟨q, hq, hqn⟩ := hex
        rcases List.mem_cons.mp hq with rfl | hq2
        · exact absurd hqn (by simpa using hp)
        · exact ⟨q, hq2, hqn⟩
      obtain ⟨q, hq, hqn, hqf⟩ := ih hex2
      refine ⟨q, List.mem_cons_of_mem _ hq, hqn, ?_⟩
      simp [ZitadelAPI.find_project_go, hp, hqf]

/-- Fixture for the C1 counterexample: valid token, flow and key present,
and a 409 conflict from the provider create. -/
def c1Args : AkArgs :=
  ⟨"https://auth.example.com", "Nextcloud", some "nextcloud",
   "https://nc.example.com/apps/user_oidc/code", some "https://nc.example.com",
   some "tok", "akadmin", none, 5⟩

/-- Responses for the C1 counterexample run. -/
def c1Env : AkEnv :=
  ⟨fun _ => 200, 404, 200,
   [⟨"flow-1", some "default-authorization-flow", some "authorization"⟩],
   200, ["key-1"],
   ⟨409, .obj [("detail", .str "unique constraint violated")], ""⟩,
   ⟨201, .obj [("pk", .num 7)], ""⟩⟩

/-- C1 counterexample: in authentik_api.py a 409 from the provider create
is not treated as already-exists — `create_oidc_provider` accepts only
201, so the run aborts with a `Failed to create OIDC provider` error and
exit code 1, performing no lookup of the existing provider. -/
theorem create_conflict_counterexample :
    authentik_main c1Args c1Env =
      .ok ⟨1, [.js (.obj [("error", .str "Failed to create OIDC provider")])],
           [.txt "Waiting for Authentik at https://auth.example.com to be ready...",
            .txt "Authentik is ready!",
            .txt "Creating OIDC provider for Nextcloud...",
            .txt "ERROR: Failed to create OIDC provider"]⟩ := by
  have hw : wait_for_ready (fun _ => 200) 5 = true := by
    rw [wait_for_ready, wait_go]
    simp [pollSuccess]
  dsimp only [authentik_main, c1Args, c1Env]
  rw [hw]
  rfl

/-- C1 (amended): only the Zitadel project and machine-user creates treat
HTTP 409 as "already exists": `ZitadelAPI.create_project` answers a 409 by
searching the project list for the same name and returning the existing id
without failing, whereas the Authentik provider create
(`AuthentikAPI.create_oidc_provider`) treats every non-201 status,
409 included, as a failure that returns `None`. -/
theorem create_project_conflict_lookup (name : String) (bearer : Option String)
    (createResp : Resp) (searchStatus : Nat) (projects : List ZitadelAPI.Project)
    (h409 : createResp.status = 409) (h200 : searchStatus = 200)
    (hex : ∃ p ∈ projects, p.name = some name) :
    (∃ p ∈ projects, p.name = some name ∧
      ZitadelAPI.create_project name bearer createResp searchStatus projects =
        .ok (some p.id,
             [⟨bearer, "/management/v1/projects"⟩,
              ⟨bearer, "/management/v1/projects/_search"⟩])) ∧
    (∀ (nm : String) (resp : Resp), resp.status = 409 →
      (AuthentikAPI.create_oidc_provider nm resp).1 = none) := by
  constructor
  · obtain ⟨p, hp, hpn, hpf⟩ := find_project_go_first name projects hex
    refine ⟨p, hp, hpn, ?_⟩
    simp [ZitadelAPI.create_project, ZitadelAPI.find_project, h409, h200, hpf]
  · intro nm resp h
    simp [AuthentikAPI.create_oidc_provider, h]

/-- Witness for C1 (amended) at a concrete 409 run. -/
theorem create_project_conflict_lookup_witness :
    ZitadelAPI.create_project "SSO Applications" (some "tok")
      ⟨409, .obj [("message", .str "already exists")], "conflict"⟩ 200
      [⟨"p-0", some "Other"⟩, ⟨"p-1", some "SSO Applications"⟩] =
      .ok (some "p-1",
           [⟨some "tok", "/management/v1/projects"⟩,
            ⟨some "tok", "/management/v1/projects/_search"⟩]) := by
  obtain ⟨⟨p, hp, hpn, hpf⟩, _⟩ :=
    create_project_conflict_lookup "SSO Applications" (some "tok")
      ⟨409, .obj [("message", .str "already exists")], "conflict"⟩ 200
      [⟨"p-0", some "Other"⟩, ⟨"p-1", some "SSO Applications"⟩] rfl rfl
      ⟨⟨"p-1", some "SSO Applications"⟩, by simp, rfl⟩
  have hp2 : p = (⟨"p-0", some "Other"⟩ : ZitadelAPI.Project) ∨
      p = (⟨"p-1", some "SSO Applications"⟩ : ZitadelAPI.Project) := by simpa using hp
  rcases hp2 with rfl | rfl
  · exact absurd hpn (by decide)
  · exact hpf

/-- Fixture for the C2 counterexample: token and project succeed, the OIDC
app create fails with a 500. -/
def c2ZEnv : ZEnv :=
  ⟨⟨200, .obj [("access_token", .str "tok")], ""⟩,
   ⟨201, .obj [("id", .str "proj-1")], ""⟩, 200, [],
   ⟨500, .obj [("error", .str "boom")], "internal error"⟩⟩

/-- C2 counterexample: when the required OIDC-app create step fails (500),
zitadel_api.py exits 1 but writes a plain-text `Error: ...` line to
stderr — no JSON object containing an `error` key appears on either
stream. -/
theorem zitadel_error_output_counterexample :
    zitadel_main
      ["zitadel_api.py", "id.example.com", "/tmp/key.json", "Nextcloud",
       "https://nc.example.com/cb"] "user-1" 1000 c2ZEnv =
      (⟨1, [],
        [.txt "Error: Failed to create OIDC app: 500 - internal error"]⟩, []) ∧
    isJsonError (.txt "Error: Failed to create OIDC app: 500 - internal error") = false :=
  ⟨rfl, rfl⟩

/-- Failure shape of the Authentik configure scripts: exit 1, empty
stdout, exactly one JSON object carrying an `error` key on stderr. -/
def singleJsonErrorStderr (r : RunOut) : Prop :=
  r.exit = 1 ∧ r.stdout = [] ∧ ∃ o, r.stderr = [o] ∧ isJsonError o = true

/-- C2 (amended): a non-2xx/3xx response on a required step always aborts
the run with a non-zero exit, but only the Authentik scripts emit a JSON
object with an `error` key (configure_2fa_enforcement.py shown here, on
each of its three required steps); zitadel_api.py instead emits a
plain-text `Error: ...` line on stderr. -/
theorem required_step_failure_exit (argv : List String) (env : C2faEnv)
    (zargv : List String) (zuid : String) (znow : Nat) (zenv : ZEnv) :
    (argv.length = 3 → env.validateResp.status ≠ 200 →
      ∃ r, configure_2fa_main argv env = .ok r ∧ singleJsonErrorStderr r) ∧
    (argv.length = 3 → env.validateResp.status = 200 → env.totpResp.status ≠ 200 →
      ∀ s pk, (env.validateResp.body.rows "results").find?
          (fun s => strIn "default-authentication-mfa-validation" (strLower (jStrD s "name"))) =
            some s →
        s.get? "pk" = some pk →
      ∃ r, configure_2fa_main argv env = .ok r ∧ singleJsonErrorStderr r) ∧
    (argv.length = 3 → env.validateResp.status = 200 → env.totpResp.status = 200 →
      ¬(env.patchResp.status = 200 ∨ env.patchResp.status = 201) →
      ∀ s pk nm ts tpk, (env.validateResp.body.rows "results").find?
          (fun s => strIn "default-authentication-mfa-validation" (strLower (jStrD s "name"))) =
            some s →
        s.get? "pk" = some pk → s.get? "name" = some nm →
        (env.totpResp.body.rows "results").find?
          (fun s => strIn "setup" (strLower (jStrD s "name"))) = some ts →
        ts.get? "pk" = some tpk →
      ∃ r, configure_2fa_main argv env = .ok r ∧ singleJsonErrorStderr r) ∧
    (zargv.length = 5 → zenv.tokenResp.status = 200 → zenv.createProjectResp.status = 201 →
      ¬(zenv.createAppResp.status = 200 ∨ zenv.createAppResp.status = 201) →
      zitadel_main zargv zuid znow zenv =
        (⟨1, [],
          [.txt ("Error: " ++ ("Failed to create OIDC app: " ++
                 toString zenv.createAppResp.status ++ " - " ++ zenv.createAppResp.text))]⟩,
         [])) := by
  refine ⟨?_, ?_, ?_, ?_⟩
  · intro h3 hv
    refine ⟨⟨1, [],
      [.js (.obj [("error", .str "Failed to list authenticator validate stages"),
                  ("details", env.validateResp.body)])]⟩, ?_, rfl, rfl, ⟨_, rfl, rfl⟩⟩
    simp [configure_2fa_main, h3, hv]
  · intro h3 hv ht s pk hfind hpk
    refine ⟨⟨1, [],
      [.js (.obj [("error", .str "Failed to list TOTP setup stages"),
                  ("details", env.totpResp.body)])]⟩, ?_, rfl, rfl, ⟨_, rfl, rfl⟩⟩
    simp [configure_2fa_main, h3, hv, ht, hfind, hpk]
  · intro h3 hv ht hp s pk nm ts tpk hfind hpk hnm htfind htpk
    have hp1 : env.patchResp.status ≠ 200 := fun h => hp (Or.inl h)
    have hp2 : env.patchResp.status ≠ 201 := fun h => hp (Or.inr h)
    refine ⟨⟨1, [],
      [.js (.obj [("error", .str "Failed to update MFA validation stage"),
                  ("details", env.patchResp.body)])]⟩, ?_, rfl, rfl, ⟨_, rfl, rfl⟩⟩
    simp [configure_2fa_main, h3, hv, ht, hfind, hpk, hnm, htfind, htpk, hp1, hp2]
  · intro h5 htk hcp hca
    have hca1 : zenv.createAppResp.status ≠ 200 := fun h => hca (Or.inl h)
    have hca2 : zenv.createAppResp.status ≠ 201 := fun h => hca (Or.inr h)
    have hlen : ¬(zargv.length < 5) := by omega
    simp [zitadel_main, hlen, zitadel_try, ZitadelAPI.get_access_token, htk,
          ZitadelAPI.create_project, hcp, ZitadelAPI.create_oidc_app, hca1, hca2]

/-- Witness for C2 (amended): the first required step of
configure_2fa_enforcement.py fails with a 500 on a concrete run, and the
Zitadel app-create failure produces the plain-text error line. -/
theorem required_step_failure_exit_witness :
    (∃ r, configure_2fa_main
        ["configure_2fa_enforcement.py", "https://auth.example.com", "tok"]
        ⟨⟨500, .obj [("detail", .str "server error")], ""⟩,
         ⟨200, .null, ""⟩, ⟨200, .null, ""⟩⟩ = .ok r ∧ singleJsonErrorStderr r) ∧
    zitadel_main ["zitadel_api.py", "id.example.com", "/k.json", "NC", "https://cb"]
        "u1" 0
        ⟨⟨200, .obj [("access_token", .str "t")], ""⟩,
         ⟨201, .obj [("id", .str "p")], ""⟩, 200, [],
         ⟨502, .null, "bad gateway"⟩⟩ =
      (⟨1, [],
        [.txt ("Error: " ++ ("Failed to create OIDC app: " ++ toString 502 ++
               " - " ++ "bad gateway"))]⟩, []) := by
  have h := required_step_failure_exit
    ["configure_2fa_enforcement.py", "https://auth.example.com", "tok"]
    ⟨⟨500, .obj [("detail", .str "server error")], ""⟩, ⟨200, .null, ""⟩, ⟨200, .null, ""⟩⟩
    ["zitadel_api.py", "id.example.com", "/k.json", "NC", "https://cb"] "u1" 0
    ⟨⟨200, .obj [("access_token", .str "t")], ""⟩,
     ⟨201, .obj [("id", .str "p")], ""⟩, 200, [],
     ⟨502, .null, "bad gateway"⟩⟩
  exact ⟨h.1 rfl (by decide), h.2.2.2 rfl rfl rfl (by decide)⟩

/-- C5: when the listing contains a resource whose match key equals the
target, the reconciler reports the identifier of that existing resource and
issues no create call.  Shown for the three cited reconcilers: the Zitadel
OIDC app (matched by name), the Authentik invitation flow (matched by slug
substring), and the Authentik invitation stage (matched by exact name). -/
theorem reconciler_match_no_create
    (argvA : List String) (envA : CoaEnv) (pid : String)
    (argvB : List String) (flowsResp : Resp)
    (argvC : List String) (envC : CifEnv) (ef slug efpk st stpk b : Json) :
    (argvA.length = 5 → envA.projectSearchStatus = 200 →
      ZitadelAPI.find_project_go "SSO Applications" envA.projects = some pid → pid ≠ "" →
      envA.appSearchStatus = 200 →
      (∃ a ∈ envA.apps, a.name = some (argvA.getD 3 "")) →
      ∃ a ∈ envA.apps, a.name = some (argvA.getD 3 "") ∧
        create_oidc_app_main argvA envA =
          (⟨0, [.js (.obj [("status", .str "exists"),
                           ("app_id", (a.id.map Json.str).getD .null),
                           ("message", .str ("App " ++ argvA.getD 3 "" ++ " already exists"))])],
            []⟩, 0, 0)) ∧
    (argvB.length = 3 → flowsResp.status = 200 →
      (∀ f ∈ flowsResp.body.rows "results", (f.get? "pk").isSome) →
      (∃ f ∈ flowsResp.body.rows "results",
        strIn "invitation" (strLower (jStrD f "slug")) = true) →
      ∃ f ∈ flowsResp.body.rows "results",
        strIn "invitation" (strLower (jStrD f "slug")) = true ∧
        ∃ pk, f.get? "pk" = some pk ∧
          create_invitation_flow_main argvB flowsResp =
            .ok ⟨0, [.js (.obj [("success", .boolean true),
                                ("message", .str "Invitation flow already exists"),
                                ("flow_id", pk)])], []⟩) ∧
    (argvC.length = 3 → envC.flowsResp.status = 200 →
      (envC.flowsResp.body.rows "results").find?
        (fun f => jStrIs f "designation" "enrollment") = some ef →
      ef.get? "slug" = some slug → ef.get? "pk" = some efpk →
      envC.stagesResp.status = 200 →
      (envC.stagesResp.body.rows "results").find?
        (fun s => jStrIs s "name" "default-enrollment-invitation") = some st →
      st.get? "pk" = some stpk →
      envC.bindingsResp.status = 200 →
      (envC.bindingsResp.body.rows "results").find?
        (fun b => match b.get? "stage" with
                  | some v => jScalarEq v stpk
                  | none => false) = some b →
      st ∈ envC.stagesResp.body.rows "results" ∧
      jStrIs st "name" "default-enrollment-invitation" = true ∧
      configure_invitation_flow_main argvC envC =
        .ok (⟨0, [.js (.obj [("success", .boolean true),
                             ("message", .str "Invitation flow configured"),
                             ("flow_slug", slug),
                             ("stage_pk", stpk),
                             ("note", .str "Invitation stage bound to enrollment flow")])],
              []⟩, 0, 0)) := by
  refine ⟨?_, ?_, ?_⟩
  · intro h5 hps hpid hpid0 has hex
    have hlen : ¬(argvA.length < 5) := by omega
    have hsome : ((envA.apps).find? (fun a => a.name == some (argvA.getD 3 ""))).isSome := by
      rw [List.find?_isSome]
      obtain ⟨a, ha, han⟩ := hex
      exact ⟨a, ha, by simpa using han⟩
    obtain ⟨a, hfind⟩ := Option.isSome_iff_exists.mp hsome
    refine ⟨a, List.mem_of_find?_eq_some hfind, by simpa using List.find?_some hfind, ?_⟩
    have hne : (pid == "") = false := by simpa using hpid0
    have hfind2 := hfind
    simp only [List.getD_eq_getElem?_getD] at hfind2
    simp [create_oidc_app_main, hlen, ZitadelOIDCManager.get_or_create_project, hps, hpid,
          hne, ZitadelOIDCManager.check_app_exists, has, hfind2]
  · intro h3 h200 hwf hex
    have hsome : ((flowsResp.body.rows "results").find?
        (fun f => strIn "invitation" (strLower (jStrD f "slug")))).isSome := by
      rw [List.find?_isSome]
      obtain ⟨f, hf, hfm⟩ := hex
      exact ⟨f, hf, hfm⟩
    obtain ⟨f, hfind⟩ := Option.isSome_iff_exists.mp hsome
    have hmem := List.mem_of_find?_eq_some hfind
    obtain ⟨pk, hpk⟩ := Option.isSome_iff_exists.mp (hwf f hmem)
    refine ⟨f, hmem, by simpa using List.find?_some hfind, pk, hpk, ?_⟩
    simp [create_invitation_flow_main, h3, h200, hfind, hpk]
  · intro h3 hf200 henr hslug hefpk hs200 hstage hstpk hb200 hbound
    refine ⟨List.mem_of_find?_eq_some hstage, by simpa using List.find?_some hstage, ?_⟩
    simp [configure_invitation_flow_main, h3, hf200, henr, hslug, hefpk, hs200, hstage,
          cif_bind_and_report, hstpk, hb200, hbound]

/-- Witness for C5 on concrete listings: each of the three reconcilers
finds its match, reports the existing identifier, and issues no create. -/
theorem reconciler_match_no_create_witness :
    create_oidc_app_main ["create_oidc_app.py", "id.example.com", "tok", "Nextcloud",
        "https://nc.example.com/cb"]
      ⟨200, [⟨"p1", some "SSO Applications"⟩], ⟨500, .null, ""⟩,
       200, [⟨some "a9", some "Nextcloud"⟩], ⟨500, .null, ""⟩⟩ =
      (⟨0, [.js (.obj [("status", .str "exists"),
                       ("app_id", .str "a9"),
                       ("message", .str ("App " ++ "Nextcloud" ++ " already exists"))])],
        []⟩, 0, 0) ∧
    create_invitation_flow_main ["create_invitation_flow.py", "https://auth.example.com", "tok"]
      ⟨200, .obj [("results", .arr [.obj [("pk", .str "f7"), ("slug", .str "invitation-flow")]])],
       ""⟩ =
      .ok ⟨0, [.js (.obj [("success", .boolean true),
                          ("message", .str "Invitation flow already exists"),
                          ("flow_id", .str "f7")])], []⟩ ∧
    configure_invitation_flow_main ["configure_invitation_flow.py", "https://auth.example.com",
        "tok"]
      ⟨⟨200, .obj [("results", .arr [.obj [("designation", .str "enrollment"),
                                           ("slug", .str "default-enrollment"),
                                           ("pk", .str "fpk1")]])], ""⟩,
       ⟨200, .obj [("results", .arr [.obj [("name", .str "default-enrollment-invitation"),
                                           ("pk", .str "spk1")]])], ""⟩,
       ⟨500, .null, ""⟩,
       ⟨200, .obj [("results", .arr [.obj [("stage", .str "spk1"), ("order", .num 0)]])], ""⟩,
       ⟨500, .null, ""⟩⟩ =
      .ok (⟨0, [.js (.obj [("success", .boolean true),
                           ("message", .str "Invitation flow configured"),
                           ("flow_slug", .str "default-enrollment"),
                           ("stage_pk", .str "spk1"),
                           ("note", .str "Invitation stage bound to enrollment flow")])],
            []⟩, 0, 0) := by
  have h := reconciler_match_no_create
    ["create_oidc_app.py", "id.example.com", "tok", "Nextcloud", "https://nc.example.com/cb"]
    ⟨200, [⟨"p1", some "SSO Applications"⟩], ⟨500, .null, ""⟩,
     200, [⟨some "a9", some "Nextcloud"⟩], ⟨500, .null, ""⟩⟩ "p1"
    ["create_invitation_flow.py", "https://auth.example.com", "tok"]
    ⟨200, .obj [("results", .arr [.obj [("pk", .str "f7"), ("slug", .str "invitation-flow")]])],
     ""⟩
    ["configure_invitation_flow.py", "https://auth.example.com", "tok"]
    ⟨⟨200, .obj [("results", .arr [.obj [("designation", .str "enrollment"),
                                         ("slug", .str "default-enrollment"),
                                         ("pk", .str "fpk1")]])], ""⟩,
     ⟨200, .obj [("results", .arr [.obj [("name", .str "default-enrollment-invitation"),
                                         ("pk", .str "spk1")]])], ""⟩,
     ⟨500, .null, ""⟩,
     ⟨200, .obj [("results", .arr [.obj [("stage", .str "spk1"), ("order", .num 0)]])], ""⟩,
     ⟨500, .null, ""⟩⟩
    (.obj [("designation", .str "enrollment"), ("slug", .str "default-enrollment"),
           ("pk", .str "fpk1")])
    (.str "default-enrollment") (.str "fpk1")
    (.obj [("name", .str "default-enrollment-invitation"), ("pk", .str "spk1")])
    (.str "spk1")
    (.obj [("stage", .str "spk1"), ("order", .num 0)])
  refine ⟨?_, ?_, ?_⟩
  · obtain ⟨a, ha, han, heq⟩ := h.1 rfl rfl rfl (by decide) rfl
      ⟨⟨some "a9", some "Nextcloud"⟩, by simp, rfl⟩
    have ha2 : a = (⟨some "a9", some "Nextcloud"⟩ : ZApp) := by simpa using ha
    subst ha2
    exact heq
  · obtain ⟨f, hf, hfm, pk, hpk, heq⟩ := h.2.1 rfl rfl
      (by intro f hf
          have hf2 : f = Json.obj [("pk", .str "f7"), ("slug", .str "invitation-flow")] := by
            simpa [Json.rows, Json.get?] using hf
          subst hf2
          rfl)
      ⟨.obj [("pk", .str "f7"), ("slug", .str "invitation-flow")],
       by simp [Json.rows, Json.get?], rfl⟩
    have hf2 : f = Json.obj [("pk", .str "f7"), ("slug", .str "invitation-flow")] := by
      simpa [Json.rows, Json.get?] using hf
    subst hf2
    have hpk2 : pk = Json.str "f7" := Option.some.inj (by rw [← hpk]; rfl)
    subst hpk2
    exact heq
  · exact (h.2.2 rfl rfl rfl rfl rfl rfl rfl rfl rfl rfl).2.2

/-- C6 counterexample: on a listing matching no recovery flow,
create_recovery_flow.py issues zero create calls (the claim demands
exactly one) and reports no identifier — it prints an informational JSON
and exits 0. -/
theorem recovery_flow_no_create_counterexample :
    create_recovery_flow_main ["create_recovery_flow.py", "https://auth.example.com", "tok"]
      ⟨200, .obj [("results", .arr [.obj [("pk", .str "f1"),
                                          ("slug", .str "default-authentication-flow"),
                                          ("designation", .str "authentication")]])], ""⟩ =
      .ok (⟨0,
        [.js (.obj [("success", .boolean true),
                    ("message",
                     .str "No recovery flow found - will use default Authentik flow after manual setup"),
                    ("note",
                     .str "Admin should configure recovery flow in Authentik UI: Flows & Stages")])],
        []⟩, 0) := rfl

/-- C6 (amended): given an empty or non-matching stage listing,
configure_invitation_flow.py issues exactly one stage-create call and
reports the pk of the created stage; create_recovery_flow.py, by contrast,
issues no create call on a non-matching listing and reports no
identifier. -/
theorem invitation_stage_single_create (argv : List String) (env : CifEnv)
    (ef slug efpk newpk b : Json)
    (argvR : List String) (flowsR : Resp)
    (h3 : argv.length = 3) (hf200 : env.flowsResp.status = 200)
    (henr : (env.flowsResp.body.rows "results").find?
      (fun f => jStrIs f "designation" "enrollment") = some ef)
    (hslug : ef.get? "slug" = some slug) (hefpk : ef.get? "pk" = some efpk)
    (hs200 : env.stagesResp.status = 200)
    (hnom : ∀ s ∈ env.stagesResp.body.rows "results",
      jStrIs s "name" "default-enrollment-invitation" = false)
    (hcs : env.createStageResp.status = 201)
    (hcpk : env.createStageResp.body.get? "pk" = some newpk)
    (hb200 : env.bindingsResp.status = 200)
    (hbound : (env.bindingsResp.body.rows "results").find?
      (fun b => match b.get? "stage" with
                | some v => jScalarEq v newpk
                | none => false) = some b)
    (h3R : argvR.length = 3) (hfR : flowsR.status = 200)
    (hnomR : ∀ f ∈ flowsR.body.rows "results",
      jStrIs f "slug" "recovery-flow" = false ∧ jStrIs f "designation" "recovery" = false) :
    configure_invitation_flow_main argv env =
      .ok (⟨0, [.js (.obj [("success", .boolean true),
                           ("message", .str "Invitation flow configured"),
                           ("flow_slug", slug),
                           ("stage_pk", newpk),
                           ("note", .str "Invitation stage bound to enrollment flow")])],
            []⟩, 1, 0) ∧
    create_recovery_flow_main argvR flowsR =
      .ok (⟨0,
        [.js (.obj [("success", .boolean true),
                    ("message",
                     .str "No recovery flow found - will use default Authentik flow after manual setup"),
                    ("note",
                     .str "Admin should configure recovery flow in Authentik UI: Flows & Stages")])],
        []⟩, 0) := by
  constructor
  · have hfindnone : (env.stagesResp.body.rows "results").find?
        (fun s => jStrIs s "name" "default-enrollment-invitation") = none := by
      rw [List.find?_eq_none]
      intro s hs
      simp [hnom s hs]
    simp [configure_invitation_flow_main, h3, hf200, henr, hslug, hefpk, hs200, hfindnone,
          hcs, cif_bind_and_report, hcpk, hb200, hbound]
  · have hfindnone : (flowsR.body.rows "results").find?
        (fun f => jStrIs f "slug" "recovery-flow" || jStrIs f "designation" "recovery") =
          none := by
      rw [List.find?_eq_none]
      intro f hf
      simp [(hnomR f hf).1, (hnomR f hf).2]
    simp [create_recovery_flow_main, h3R, hfR, hfindnone]

/-- Witness for C6 (amended) on concrete non-matching listings. -/
theorem invitation_stage_single_create_witness :
    configure_invitation_flow_main
      ["configure_invitation_flow.py", "https://auth.example.com", "tok"]
      ⟨⟨200, .obj [("results", .arr [.obj [("designation", .str "enrollment"),
                                           ("slug", .str "default-enrollment"),
                                           ("pk", .str "fpk1")]])], ""⟩,
       ⟨200, .obj [("results", .arr [])], ""⟩,
       ⟨201, .obj [("pk", .str "newstage"), ("name", .str "default-enrollment-invitation")], ""⟩,
       ⟨200, .obj [("results", .arr [.obj [("stage", .str "newstage")]])], ""⟩,
       ⟨500, .null, ""⟩⟩ =
      .ok (⟨0, [.js (.obj [("success", .boolean true),
                           ("message", .str "Invitation flow configured"),
                           ("flow_slug", .str "default-enrollment"),
                           ("stage_pk", .str "newstage"),
                           ("note", .str "Invitation stage bound to enrollment flow")])],
            []⟩, 1, 0) := by
  have h := invitation_stage_single_create
    ["configure_invitation_flow.py", "https://auth.example.com", "tok"]
    ⟨⟨200, .obj [("results", .arr [.obj [("designation", .str "enrollment"),
                                         ("slug", .str "default-enrollment"),
                                         ("pk", .str "fpk1")]])], ""⟩,
     ⟨200, .obj [("results", .arr [])], ""⟩,
     ⟨201, .obj [("pk", .str "newstage"), ("name", .str "default-enrollment-invitation")], ""⟩,
     ⟨200, .obj [("results", .arr [.obj [("stage", .str "newstage")]])], ""⟩,
     ⟨500, .null, ""⟩⟩
    (.obj [("designation", .str "enrollment"), ("slug", .str "default-enrollment"),
           ("pk", .str "fpk1")])
    (.str "default-enrollment") (.str "fpk1") (.str "newstage")
    (.obj [("stage", .str "newstage")])
    ["create_recovery_flow.py", "https://auth.example.com", "tok"]
    ⟨200, .obj [("results", .arr [])], ""⟩
    rfl rfl rfl rfl rfl rfl
    (by intro s hs; simp [Json.rows, Json.get?] at hs)
    rfl rfl rfl rfl rfl rfl
    (by intro f hf; simp [Json.rows, Json.get?] at hf)
  exact h.1

theorem Json.truthy_of_get? (j : Json) (k : String) (v : Json)
    (h : j.get? k = some v) : j.truthy = true := by
  cases j with
  | obj kvs =>
    cases kvs with
    | nil => simp [Json.get?, List.lookup] at h
    | cons kv rest => simp [Json.truthy]
  | null => simp [Json.get?] at h
  | str s => simp [Json.get?] at h
  | num n => simp [Json.get?] at h
  | boolean b => simp [Json.get?] at h
  | arr xs => simp [Json.get?] at h

/-- C7: on the token path, with the service reporting ready, an existing
default authorization flow and signing key, and 201 creation responses
whose bodies carry the identifiers and credentials, authentik_api.py
prints to stdout a single JSON object whose client_id, client_secret,
provider_id and application_id are the non-empty values returned by the
API and whose discovery_uri is
`{domain}/application/o/{slug}/.well-known/openid-configuration`. -/
theorem authentik_provider_flow_output (args : AkArgs) (env : AkEnv)
    (tok fu ku : String) (ppk apk : Json) (cid csec : String)
    (hwait : wait_for_ready env.poll args.wait_timeout = true)
    (htok : args.token = some tok) (htok0 : tok ≠ "")
    (hflow : (AuthentikAPI.get_default_authorization_flow env.flowsStatus env.flows).1 =
      some fu)
    (hfu : fu ≠ "")
    (hkey : (AuthentikAPI.get_default_signing_key env.keysStatus env.keys).1 = some ku)
    (hku : ku ≠ "")
    (hp : env.providerResp.status = 201)
    (hppk : env.providerResp.body.get? "pk" = some ppk) (hppkT : ppk.truthy = true)
    (hcid : env.providerResp.body.get? "client_id" = some (.str cid)) (hcid0 : cid ≠ "")
    (hcsec : env.providerResp.body.get? "client_secret" = some (.str csec))
    (hcsec0 : csec ≠ "")
    (ha : env.appResp.status = 201)
    (hapk : env.appResp.body.get? "pk" = some apk) (hapkT : apk.truthy = true) :
    ∃ r, authentik_main args env = .ok r ∧ r.exit = 0 ∧
      r.stdout =
        [.js (.obj
          [("success", .boolean true),
           ("provider_id", ppk),
           ("application_id", apk),
           ("client_id", .str cid),
           ("client_secret", .str csec),
           ("discovery_uri",
            .str (args.domain ++ "/application/o/" ++ args.app_slug.getD (strLower args.app_name) ++
                  "/.well-known/openid-configuration")),
           ("issuer",
            .str (args.domain ++ "/application/o/" ++ args.app_slug.getD (strLower args.app_name) ++
                  "/"))])] ∧
      cid ≠ "" ∧ csec ≠ "" ∧ ppk.truthy = true ∧ apk.truthy = true := by
  have htok2 : falsyStr args.token = false := by
    rw [htok]
    simpa [falsyStr] using htok0
  have hfu2 : falsyStr (some fu) = false := by simpa [falsyStr] using hfu
  have hku2 : falsyStr (some ku) = false := by simpa [falsyStr] using hku
  have htruthyP : env.providerResp.body.truthy = true := Json.truthy_of_get? _ _ _ hppk
  have htruthyA : env.appResp.body.truthy = true := Json.truthy_of_get? _ _ _ hapk
  simp only [authentik_main, hwait, if_true, htok2, Bool.false_eq_true, if_false, hflow, hkey,
    hfu2, hku2, Bool.or_self, AuthentikAPI.create_oidc_provider, hp,
    AuthentikAPI.create_application, ha]
  simp only [beq_self_eq_true, if_true, htruthyP, htruthyA, Bool.not_true, Bool.false_eq_true,
    if_false, hppk, hapk, hcid, hcsec]
  exact ⟨_, rfl, rfl, rfl, hcid0, hcsec0, hppkT, hapkT⟩

/-- Witness for C7 on a concrete successful run. -/
theorem authentik_provider_flow_output_witness :
    (authentik_main
      ⟨"https://auth.example.com", "Nextcloud", some "nextcloud",
       "https://nc.example.com/apps/user_oidc/code", some "https://nc.example.com",
       some "tok", "akadmin", none, 5⟩
      ⟨fun _ => 200, 404, 200, [⟨"flow-1", some "default-authorization-flow", none⟩],
       200, ["key-1"],
       ⟨201, .obj [("pk", .num 42), ("client_id", .str "cid123"),
                   ("client_secret", .str "sec456")], ""⟩,
       ⟨201, .obj [("pk", .num 7)], ""⟩⟩).map RunOut.exit = .ok 0 ∧
    (authentik_main
      ⟨"https://auth.example.com", "Nextcloud", some "nextcloud",
       "https://nc.example.com/apps/user_oidc/code", some "https://nc.example.com",
       some "tok", "akadmin", none, 5⟩
      ⟨fun _ => 200, 404, 200, [⟨"flow-1", some "default-authorization-flow", none⟩],
       200, ["key-1"],
       ⟨201, .obj [("pk", .num 42), ("client_id", .str "cid123"),
                   ("client_secret", .str "sec456")], ""⟩,
       ⟨201, .obj [("pk", .num 7)], ""⟩⟩).map RunOut.stdout =
      .ok [.js (.obj
        [("success", .boolean true),
         ("provider_id", .num 42),
         ("application_id", .num 7),
         ("client_id", .str "cid123"),
         ("client_secret", .str "sec456"),
         ("discovery_uri",
          .str "https://auth.example.com/application/o/nextcloud/.well-known/openid-configuration"),
         ("issuer", .str "https://auth.example.com/application/o/nextcloud/")])] := by
  obtain ⟨r, heq, hexit, hstdout, _⟩ := authentik_provider_flow_output
    ⟨"https://auth.example.com", "Nextcloud", some "nextcloud",
     "https://nc.example.com/apps/user_oidc/code", some "https://nc.example.com",
     some "tok", "akadmin", none, 5⟩
    ⟨fun _ => 200, 404, 200, [⟨"flow-1", some "default-authorization-flow", none⟩],
     200, ["key-1"],
     ⟨201, .obj [("pk", .num 42), ("client_id", .str "cid123"),
                 ("client_secret", .str "sec456")], ""⟩,
     ⟨201, .obj [("pk", .num 7)], ""⟩⟩
    "tok" "flow-1" "key-1" (.num 42) (.num 7) "cid123" "sec456"
    (by rw [wait_for_ready, wait_go]; simp [pollSuccess])
    rfl (by decide) rfl (by decide) rfl (by decide) rfl rfl (by decide)
    rfl (by decide) rfl (by decide) rfl rfl (by decide)
  rw [heq]
  constructor
  · show Except.ok r.exit = Except.ok 0
    rw [hexit]
  · show Except.ok r.stdout = Except.ok _
    rw [hstdout]
    rfl

/-- Fixture: a fully successful bootstrap run. -/
def c9BootEnv : BootEnv :=
  ⟨true, ⟨201, .obj [("userId", .str "u42")], ""⟩, 200, [],
   ⟨201, .obj [("token", .str "pat-1")], ""⟩⟩

/-- C9 counterexample: a successful run of bootstrap_api_token.py exits 0
having written a non-empty sequence of plain-text lines — the banner, the
progress diagnostics and the minted token — to stdout, and no JSON object
at all, so its stdout is not a single machine-parseable JSON object. -/
theorem bootstrap_stdout_counterexample :
    (bootstrap_main ["bootstrap_api_token.py", "id.example.com", "admin", "pw"]
      c9BootEnv).exit = 0 ∧
    (bootstrap_main ["bootstrap_api_token.py", "id.example.com", "admin", "pw"]
      c9BootEnv).stdout.all Out.isText = true ∧
    (bootstrap_main ["bootstrap_api_token.py", "id.example.com", "admin", "pw"]
      c9BootEnv).stdout.isEmpty = false :=
  ⟨rfl, rfl, rfl⟩

theorem gdaf_all_text (s : Nat) (l : List AkFlow) :
    ((AuthentikAPI.get_default_authorization_flow s l).2.all Out.isText) = true := by
  unfold AuthentikAPI.get_default_authorization_flow
  split
  · rfl
  · split <;> rfl

theorem gdsk_all_text (s : Nat) (l : List String) :
    ((AuthentikAPI.get_default_signing_key s l).2.all Out.isText) = true := by
  unfold AuthentikAPI.get_default_signing_key
  split
  · split <;> rfl
  · rfl

theorem create_provider_all_text (n : String) (resp : Resp) :
    ((AuthentikAPI.create_oidc_provider n resp).2.all Out.isText) = true := by
  unfold AuthentikAPI.create_oidc_provider
  split <;> rfl

theorem create_application_all_text (n s : String) (resp : Resp) :
    ((AuthentikAPI.create_application n s resp).2.all Out.isText) = true := by
  unfold AuthentikAPI.create_application
  split <;> rfl

theorem create_provider_some (n : String) (resp : Resp) (p : Json)
    (h : (AuthentikAPI.create_oidc_provider n resp).1 = some p) :
    resp.status = 201 ∧ p = resp.body := by
  by_cases hs : (resp.status == 201) = true
  · simp [AuthentikAPI.create_oidc_provider, hs] at h
    exact ⟨by simpa using hs, h.symm⟩
  · simp [AuthentikAPI.create_oidc_provider, hs] at h

theorem create_application_some (n s : String) (resp : Resp) (p : Json)
    (h : (AuthentikAPI.create_application n s resp).1 = some p) :
    resp.status = 201 ∧ p = resp.body := by
  by_cases hs : (resp.status == 201) = true
  · simp [AuthentikAPI.create_application, hs] at h
    exact ⟨by simpa using hs, h.symm⟩
  · simp [AuthentikAPI.create_application, hs] at h

/-- C9 (amended): on the token path, given creation-response bodies that
carry the keys the script reads, authentik_api.py writes exactly one JSON
object to stdout — the success object, or an object with an `error` key —
and only plain diagnostic text to stderr; the Zitadel bootstrap script
instead writes plain-text diagnostics (and the minted token) to stdout. -/
theorem authentik_stdout_single_json (args : AkArgs) (env : AkEnv) (tok : String)
    (htok : args.token = some tok) (htok0 : tok ≠ "")
    (hpwf : env.providerResp.status = 201 →
      (env.providerResp.body.get? "pk").isSome ∧
      (env.providerResp.body.get? "client_id").isSome ∧
      (env.providerResp.body.get? "client_secret").isSome)
    (hawf : env.appResp.status = 201 → (env.appResp.body.get? "pk").isSome) :
    ∃ r j, authentik_main args env = .ok r ∧ r.stdout = [.js j] ∧
      r.stderr.all Out.isText = true := by
  have htok2 : falsyStr args.token = false := by
    rw [htok]
    simpa [falsyStr] using htok0
  cases hwt : wait_for_ready env.poll args.wait_timeout with
  | false =>
    simp only [authentik_main, hwt, Bool.false_eq_true, if_false]
    exact ⟨_, _, rfl, rfl, rfl⟩
  | true =>
    simp only [authentik_main, hwt, if_true, htok2, Bool.false_eq_true, if_false]
    split
    · exact ⟨_, _, rfl, rfl, by
        simp [List.all_append, gdaf_all_text, gdsk_all_text, Out.isText]⟩
    · split
      · exact ⟨_, _, rfl, rfl, by
          simp [List.all_append, gdaf_all_text, gdsk_all_text, create_provider_all_text,
                Out.isText]⟩
      · next provider hpr =>
        split
        · exact ⟨_, _, rfl, rfl, by
            simp [List.all_append, gdaf_all_text, gdsk_all_text, create_provider_all_text,
                  Out.isText]⟩
        · obtain ⟨hps, hpb⟩ := create_provider_some _ _ _ hpr
          obtain ⟨hpk1, hcid1, hcsec1⟩ := hpwf hps
          split
          · next hnone =>
            rw [hpb] at hnone
            rw [hnone] at hpk1
            simp at hpk1
          · split
            · exact ⟨_, _, rfl, rfl, by
                simp [List.all_append, gdaf_all_text, gdsk_all_text,
                      create_provider_all_text, create_application_all_text, Out.isText]⟩
            · next application hap =>
              split
              · exact ⟨_, _, rfl, rfl, by
                  simp [List.all_append, gdaf_all_text, gdsk_all_text,
                        create_provider_all_text, create_application_all_text, Out.isText]⟩
              · obtain ⟨has, hab⟩ := create_application_some _ _ _ _ hap
                have hapk1 := hawf has
                split
                · exact ⟨_, _, rfl, rfl, by
                    simp [List.all_append, gdaf_all_text, gdsk_all_text,
                          create_provider_all_text, create_application_all_text, Out.isText]⟩
                · next h1 =>
                  exfalso
                  rw [← hpb] at hcid1 hcsec1
                  rw [← hab] at hapk1
                  obtain ⟨apk, hapk⟩ := Option.isSome_iff_exists.mp hapk1
                  obtain ⟨cid, hcid⟩ := Option.isSome_iff_exists.mp hcid1
                  obtain ⟨csec, hcsec⟩ := Option.isSome_iff_exists.mp hcsec1
                  exact h1 apk cid csec hapk hcid hcsec

/-- Witness for C9 (amended) on a concrete successful token-path run. -/
theorem authentik_stdout_single_json_witness :
    ∃ r j, authentik_main
      ⟨"https://auth.example.com", "Nextcloud", some "nextcloud",
       "https://nc.example.com/apps/user_oidc/code", some "https://nc.example.com",
       some "tok", "akadmin", none, 5⟩
      ⟨fun _ => 200, 404, 200, [⟨"flow-1", some "default-authorization-flow", none⟩],
       200, ["key-1"],
       ⟨201, .obj [("pk", .num 42), ("client_id", .str "cid123"),
                   ("client_secret", .str "sec456")], ""⟩,
       ⟨201, .obj [("pk", .num 7)], ""⟩⟩ = .ok r ∧
      r.stdout = [.js j] ∧ r.stderr.all Out.isText = true :=
  authentik_stdout_single_json
    ⟨"https://auth.example.com", "Nextcloud", some "nextcloud",
     "https://nc.example.com/apps/user_oidc/code", some "https://nc.example.com",
     some "tok", "akadmin", none, 5⟩
    ⟨fun _ => 200, 404, 200, [⟨"flow-1", some "default-authorization-flow", none⟩],
     200, ["key-1"],
     ⟨201, .obj [("pk", .num 42), ("client_id", .str "cid123"),
                 ("client_secret", .str "sec456")], ""⟩,
     ⟨201, .obj [("pk", .num 7)], ""⟩⟩
    "tok" rfl (by decide) (fun _ => ⟨rfl, rfl, rfl⟩) (fun _ => rfl)
